import Mathlib

/-!
Verification development for the smart-shopping backend.

The definitions below are a shallow embedding of the Python sources:
  * `app/services/product_service.py`  (catalog search and lookup)
  * `app/services/cart_service.py`     (cart arithmetic)
  * `app/services/payment_service.py`  (payment-session creation, modelled
    as an oracle of provider outcomes)
  * `app/agent/shopping_agent.py`      (tool wrappers, `process_message`,
    `execute_action`)

Modelling conventions:
  * Python floats are modelled as exact rationals (`ℚ`).
  * Python exceptions are modelled with the `Outcome` sum type; a caught
    exception corresponds to the `err` constructor carrying `str(e)`.
  * The OpenAI completion client is external; it is modelled as a script
    (list) of responses consumed one per API call, where an `err` entry
    models a raised exception and an exhausted script also models one.
  * In-place mutation of per-session state is modelled by explicit state
    passing; the lazy creation of an empty cart performed by
    `CartService.get_cart` is modelled observationally by a total map
    from session ids to carts that defaults to the empty cart.
  * Timestamps (`created_at` / `updated_at`) are dropped: no claim and no
    control path depends on them.
  * String contractions from the sources are written with the unicode
    escape sequence 0027 for the apostrophe character.
-/

namespace SmartShopping

/-- Outcome of a fallible Python call: `ok` is a normal return, `err` is a
caught exception carrying `str(e)` (or an error payload `{"error": msg}`). -/
inductive Outcome (α : Type) where
  | ok (val : α)
  | err (msg : String)
deriving DecidableEq, Repr

/-- Product record (`app/models/response_models.py::Product`), restricted to
the fields the embedded code paths read. -/
structure Product where
  id : String
  name : String
  description : String
  price : ℚ
  category : String
  brand : Option String := none
deriving DecidableEq, Repr

/-- Item of a shopping cart (`response_models.py::CartItem`). -/
structure CartItem where
  product : Product
  quantity : Int
  item_total : ℚ
deriving DecidableEq, Repr

/-- Shopping cart (`response_models.py::CartResponse`), without timestamps. -/
structure Cart where
  session_id : String
  items : List CartItem
  subtotal : ℚ
  tax : Option ℚ := none
  shipping : Option ℚ := none
  total : ℚ
deriving DecidableEq, Repr

/-- Empty cart created by `CartService.get_cart` for an unknown session. -/
def emptyCart (sid : String) : Cart :=
  { session_id := sid, items := [], subtotal := 0, total := 0 }

/-- Lowercasing model of Python `str.lower` (`String.toLower` applied
characterwise; adequate for the ASCII catalog data). -/
def lowerStr (s : String) : String :=
  ⟨s.data.map Char.toLower⟩

/-- Model of Python `needle.startswith` on character lists. -/
def startsWithList (needle hay : List Char) : Bool :=
  match needle, hay with
  | [], _ => true
  | _ :: _, [] => false
  | a :: as, b :: bs => a == b && startsWithList as bs

/-- Model of Python `needle in hay` (contiguous substring) on character
lists. -/
def infixOfList (needle : List Char) : List Char → Bool
  | [] => startsWithList needle []
  | b :: bs => startsWithList needle (b :: bs) || infixOfList needle bs

/-- Model of the Python expression `needle in hay` for strings. -/
def strContains (hay needle : String) : Bool :=
  infixOfList needle.data hay.data

/-- Search filters accepted by `ProductService.search_products`. -/
structure Filters where
  min_price : Option ℚ := none
  max_price : Option ℚ := none
  category : Option String := none
  brand : Option String := none
deriving DecidableEq, Repr

/-- Text-matching part of `ProductService.search_products`: the lowercased
query must occur in the name, description, category or brand. -/
def matchesQuery (ql : String) (p : Product) : Bool :=
  strContains (lowerStr p.name) ql ||
  strContains (lowerStr p.description) ql ||
  strContains (lowerStr p.category) ql ||
  strContains (lowerStr (p.brand.getD "")) ql

/-- Filter part of `ProductService.search_products` (`continue` on a failed
filter is modelled as the conjunction of the kept conditions). -/
def passesFilters (f : Filters) (p : Product) : Bool :=
  (match f.min_price with
   | some m => !(p.price < m)
   | none => true) &&
  (match f.max_price with
   | some m => !(m < p.price)
   | none => true) &&
  (match f.category with
   | some c => p.category == c
   | none => true) &&
  (match f.brand with
   | some b => p.brand == some b
   | none => true)

/-- Embedding of `ProductService.search_products` with the default
pagination used by the agent (`page = 1`, `page_size = 10`, hence
`results[0:10]`). -/
def searchProducts (catalog : List Product) (query : String)
    (filters : Option Filters) : List Product :=
  let ql := lowerStr query
  (catalog.filter (fun p =>
    matchesQuery ql p &&
    (match filters with
     | some f => passesFilters f p
     | none => true))).take 10

/-- Embedding of `ProductService.get_product_details` (dict lookup by id). -/
def getProductDetails (catalog : List Product) (product_id : String) :
    Option Product :=
  catalog.find? (fun p => p.id == product_id)

/-- Embedding of `ProductService.get_related_products`: products of the same
category, excluding the product itself, up to `limit`. -/
def getRelatedProducts (catalog : List Product) (product_id : String)
    (limit : Nat) : List Product :=
  match getProductDetails catalog product_id with
  | none => []
  | some p =>
      (catalog.filter (fun x => x.id != product_id && x.category == p.category)).take limit

/-- Embedding of `CartService._update_cart_totals`: subtotal is the sum of
item totals, tax is 10 percent of a positive subtotal, shipping is a flat
5.99 fee on a positive subtotal, and total is their sum. -/
def updateCartTotals (cart : Cart) : Cart :=
  let subtotal := (cart.items.map (fun it => it.item_total)).sum
  let tax := if 0 < subtotal then subtotal * (1 / 10 : ℚ) else 0
  let shipping := if 0 < subtotal then (599 / 100 : ℚ) else 0
  { cart with
      subtotal := subtotal
      tax := some tax
      shipping := some shipping
      total := subtotal + tax + shipping }

/-- Model of the `for item in cart.items: ... break / else: ...` loop in
`CartService.add_to_cart`: update the first item whose product id matches
(re-deriving its `item_total` from the new quantity), or report `none` if no
item matches. -/
def addToFirstMatch (product_id : String) (quantity : Int) :
    List CartItem → Option (List CartItem)
  | [] => none
  | it :: rest =>
      if it.product.id == product_id then
        some ({ it with
                  quantity := it.quantity + quantity
                  item_total := ((it.quantity + quantity : Int) : ℚ) * it.product.price } :: rest)
      else
        (addToFirstMatch product_id quantity rest).map (fun rest2 => it :: rest2)

/-- Embedding of `CartService.add_to_cart` acting on one cart value: raises
(`err`) when the product id is not in the catalog, otherwise bumps the first
matching item or appends a fresh one, then recalculates totals. -/
def cartAddToCart (catalog : List Product) (cart : Cart) (product_id : String)
    (quantity : Int) : Outcome Cart :=
  match getProductDetails catalog product_id with
  | none => .err ("Product with ID " ++ product_id ++ " not found")
  | some pd =>
      let items2 :=
        match addToFirstMatch product_id quantity cart.items with
        | some its => its
        | none =>
            cart.items ++
              [{ product := pd, quantity := quantity,
                 item_total := pd.price * (quantity : ℚ) }]
      .ok (updateCartTotals { cart with items := items2 })

/-- Embedding of `CartService.remove_from_cart`: drop all items with the
given product id and recalculate totals. -/
def cartRemoveFromCart (cart : Cart) (product_id : String) : Cart :=
  updateCartTotals
    { cart with items := cart.items.filter (fun it => it.product.id != product_id) }

/-- Model of the in-place quantity assignment inside
`CartService.update_quantity` (first matching item only). -/
def setFirstMatch (product_id : String) (quantity : Int) :
    List CartItem → Option (List CartItem)
  | [] => none
  | it :: rest =>
      if it.product.id == product_id then
        some ({ it with
                  quantity := quantity
                  item_total := ((quantity : Int) : ℚ) * it.product.price } :: rest)
      else
        (setFirstMatch product_id quantity rest).map (fun rest2 => it :: rest2)

/-- Embedding of `CartService.update_quantity`. -/
def cartUpdateQuantity (catalog : List Product) (cart : Cart)
    (product_id : String) (quantity : Int) : Outcome Cart :=
  if cart.items.any (fun it => it.product.id == product_id) then
    if quantity ≤ 0 then
      .ok (cartRemoveFromCart cart product_id)
    else
      .ok (updateCartTotals
        { cart with items := (setFirstMatch product_id quantity cart.items).getD cart.items })
  else
    if 0 < quantity then
      cartAddToCart catalog cart product_id quantity
    else
      .ok (updateCartTotals cart)

/-- Cart collaborator state: one cart per session id, defaulting to the empty
cart (observational model of the lazy creation in `CartService.get_cart`). -/
def Carts : Type := String → Cart

/-- State-level embedding of `CartService.add_to_cart`. -/
def cartServiceAdd (catalog : List Product) (carts : Carts) (sid product_id : String)
    (quantity : Int) : Outcome (Cart × Carts) :=
  match cartAddToCart catalog (carts sid) product_id quantity with
  | .ok c => .ok (c, fun s => if s = sid then c else carts s)
  | .err e => .err e

/-- Stripe checkout session object, restricted to the fields the code reads. -/
structure CheckoutSession where
  url : String
  id : String
deriving DecidableEq, Repr

/-- Payment collaborator state: a script of provider outcomes consumed one
per `create_payment_session` call, plus the sessions created so far. -/
structure PaymentState where
  script : List (Outcome CheckoutSession)
  created : List CheckoutSession
deriving DecidableEq, Repr

/-- Embedding of `PaymentService.create_payment_session`: the provider
outcome is taken from the script; a Stripe error is re-raised as an `err`
and an exhausted script also models a raised error. The cart, email and
redirect URLs only shape the request sent to the external provider, so the
modelled outcome does not depend on them. -/
def createPaymentSession (ps : PaymentState) (_cart : Cart)
    (_customer_email _success_url _cancel_url : String) :
    Outcome CheckoutSession × PaymentState :=
  match ps.script with
  | [] => (.err "Payment processing error: provider unavailable", ps)
  | .ok s :: rest => (.ok s, { script := rest, created := ps.created ++ [s] })
  | .err e :: rest => (.err e, { ps with script := rest })

/-- Checkout payload returned by the agent-level `create_checkout` wrapper. -/
structure CheckoutInfo where
  checkout_url : String
  checkout_id : String
  session_id : String
deriving DecidableEq, Repr

/-- Embedding of the module-level `add_to_cart` wrapper in
`shopping_agent.py`: a raised `ValueError` is caught and returned as an
error payload, leaving cart state untouched. -/
def agentAddToCart (catalog : List Product) (carts : Carts) (sid product_id : String)
    (quantity : Int) : Outcome Cart × Carts :=
  match cartServiceAdd catalog carts sid product_id quantity with
  | .ok (c, carts2) => (.ok c, carts2)
  | .err e => (.err e, carts)

/-- Embedding of the module-level `create_checkout` wrapper in
`shopping_agent.py`: fetch the current cart, create a payment session, and
catch any provider error as an error payload. -/
def agentCreateCheckout (carts : Carts) (ps : PaymentState)
    (sid email success_url cancel_url : String) :
    Outcome CheckoutInfo × PaymentState :=
  let cart := carts sid
  match createPaymentSession ps cart email success_url cancel_url with
  | (.ok s, ps2) =>
      (.ok { checkout_url := s.url, checkout_id := s.id, session_id := sid }, ps2)
  | (.err e, ps2) => (.err e, ps2)

/-- Message content: absent (`None`), plain text, or the composite
text-plus-image content list used for the first image-bearing user turn. -/
inductive ContentVal where
  | empty
  | text (s : String)
  | withImage (s url : String)
deriving DecidableEq, Repr

/-- Parsed tool-call arguments: an optional-field record modelling the JSON
dict produced by `json.loads(tool_call.function.arguments)` for the declared
tool schemas (`dict.get` on a missing key is `none`). -/
structure ArgsDict where
  query : Option String := none
  filters : Option Filters := none
  product_id : Option String := none
  quantity : Option Int := none
  limit : Option Nat := none
  email : Option String := none
  success_url : Option String := none
  cancel_url : Option String := none
deriving DecidableEq, Repr

/-- Tool call requested by the model. `args = none` models arguments whose
JSON does not parse, which makes `json.loads` raise. -/
structure ToolCall where
  id : String
  name : String
  args : Option ArgsDict := none
deriving DecidableEq, Repr

/-- Structured payload of a tool-result message (the dict the code passes to
`json.dumps`), one constructor per dispatch branch of `process_message`. -/
inductive ToolResult where
  | search (products : List Product)
  | details (res : Outcome Product)
  | related (products : List Product)
  | waiting_add (product : Outcome Product)
  | cart_view (cart : Cart)
  | waiting_checkout (cart : Cart)
  | unknown (tool : String)
deriving DecidableEq, Repr

/-- Chat message as stored in the per-session transcript. -/
structure Msg where
  role : String
  content : ContentVal := .empty
  tool_calls : List ToolCall := []
  tool_call_id : Option String := none
  tool_name : Option String := none
  tool_result : Option ToolResult := none
deriving DecidableEq, Repr

/-- System instruction prompt created by `_create_system_prompt`
(abbreviated to its opening sentence; no code path branches on its text). -/
def systemPrompt : String :=
  "You are an AI shopping assistant that helps users find products they are looking for."

/-- System message placed first in every new conversation. -/
def systemMsg : Msg :=
  { role := "system", content := .text systemPrompt }

/-- System nudge appended when an image-bearing turn produced no tool calls. -/
def nudgeMsg : Msg :=
  { role := "system",
    content := .text "The user has uploaded an image. Please use the search_products tool to find similar products based on what you see in the image." }

/-- Plain-text user message. -/
def userTextMsg (m : String) : Msg :=
  { role := "user", content := .text m }

/-- Assistant response as returned by one completion call. -/
structure AssistantOut where
  content : Option String := none
  tool_calls : List ToolCall := []
deriving DecidableEq, Repr

/-- Transcript form (`model_dump`) of an assistant response. -/
def assistantMsgOf (a : AssistantOut) : Msg :=
  { role := "assistant",
    content := match a.content with
               | none => .empty
               | some s => .text s,
    tool_calls := a.tool_calls }

/-- Tool-result message appended for one tool call (the structured payload
stands for the `json.dumps(result)` content string). -/
def toolMsgOf (tc : ToolCall) (res : ToolResult) : Msg :=
  { role := "tool", tool_call_id := some tc.id, tool_name := some tc.name,
    tool_result := some res }

/-- Per-session conversation state kept by the agent. -/
structure Conv where
  messages : List Msg
  session_id : String
  has_image : Bool
deriving DecidableEq, Repr

/-- Session store: the dynamic `conversation_<session_id>` attributes. -/
def Convs : Type := String → Option Conv

/-- Completion-call script: successive responses of the external model, an
`err` entry modelling a raised API error. -/
def Script : Type := List (Outcome AssistantOut)

/-- One completion call: consume the next scripted response. The message
list and tool-choice mode shape the request to the external model but do not
determine its scripted answer; an exhausted script models an API failure. -/
def llmCall (_messages : List Msg) (script : Script) :
    Outcome AssistantOut × Script :=
  match script with
  | [] => (.err "completion client unavailable", [])
  | r :: rest => (r, rest)

/-- Pending gated action (the `action_data` dict built by
`process_message`). For `add_to_cart` the stored product is the full result
of the confirmation-time `get_product_details` call, which may itself be an
error payload. -/
inductive ActionData where
  | add (product : Outcome Product) (quantity : Int) (session_id : String)
  | checkout (cart : Cart) (email success_url cancel_url : Option String)
      (session_id : String)
deriving DecidableEq, Repr

/-- Turn result returned by `process_message`. -/
structure TurnResult where
  response : Option String
  suggested_products : List Product
  requires_action : Bool
  action_data : Option ActionData
deriving DecidableEq, Repr

/-- Leading text of the degraded response built by the turn-level exception
handler in `process_message`. -/
def errorIntro : String :=
  "I\u0027m sorry, I encountered an error processing your request. "

/-- Degraded turn result returned by the turn-level exception handler. -/
def mkDegraded (e : String) : TurnResult :=
  { response := some (errorIntro ++ e), suggested_products := [],
    requires_action := false, action_data := none }

/-- Fallback response text used when the assistant message has no tool calls
and empty or absent content. -/
def fallbackText : String :=
  "I\u0027ll help you find what you\u0027re looking for."

/-- Decidable well-formedness of one tool call at dispatch time: the
arguments JSON parses, and tools invoked via `**arguments` received their
required keys (otherwise `json.loads` or the call raises and the turn
aborts). -/
def callOk (tc : ToolCall) : Bool :=
  match tc.args with
  | none => false
  | some d =>
      if tc.name == "search_products" then d.query.isSome
      else if tc.name == "get_product_details" then d.product_id.isSome
      else if tc.name == "get_related_products" then d.product_id.isSome
      else true

/-- Details lookup used on an optional product id (`product_id = None` is
not a key of the catalog dict, so it yields the not-found payload). -/
def detailsOutcome (catalog : List Product) (product_id : Option String) :
    Outcome Product :=
  match product_id with
  | none => .err "Product not found"
  | some pid =>
      match getProductDetails catalog pid with
      | some p => .ok p
      | none => .err "Product not found"

/-- Result payload produced by one dispatched tool call (the value the loop
body of `process_message` appends as the tool message content). -/
def callResult (catalog : List Product) (carts : Carts) (sid : String)
    (tc : ToolCall) : ToolResult :=
  match tc.args with
  | none => .unknown tc.name
  | some d =>
      if tc.name == "search_products" then
        .search (searchProducts catalog (d.query.getD "") d.filters)
      else if tc.name == "get_product_details" then
        .details (detailsOutcome catalog d.product_id)
      else if tc.name == "get_related_products" then
        .related (getRelatedProducts catalog (d.product_id.getD "") (d.limit.getD 3))
      else if tc.name == "add_to_cart" then
        .waiting_add (detailsOutcome catalog d.product_id)
      else if tc.name == "get_cart" then
        .cart_view (carts sid)
      else if tc.name == "create_checkout" then
        .waiting_checkout (carts sid)
      else .unknown tc.name

/-- Product list a tool call contributes to `suggested_products`: the result
list for a search or related-products call, a singleton for a successful
details call, and nothing for every other tool. -/
def callYield (catalog : List Product) (tc : ToolCall) : List Product :=
  match tc.args with
  | none => []
  | some d =>
      if tc.name == "search_products" then
        searchProducts catalog (d.query.getD "") d.filters
      else if tc.name == "get_product_details" then
        match detailsOutcome catalog d.product_id with
        | .ok p => [p]
        | .err _ => []
      else if tc.name == "get_related_products" then
        getRelatedProducts catalog (d.product_id.getD "") (d.limit.getD 3)
      else []

/-- Pending-action update a tool call performs: the gated tools overwrite
`action_data` with a fresh pending action, every other tool leaves it. -/
def pendingOf (catalog : List Product) (carts : Carts) (sid : String)
    (tc : ToolCall) (prev : Option ActionData) : Option ActionData :=
  match tc.args with
  | none => prev
  | some d =>
      if tc.name == "add_to_cart" then
        some (.add (detailsOutcome catalog d.product_id) (d.quantity.getD 1) sid)
      else if tc.name == "create_checkout" then
        some (.checkout (carts sid) d.email d.success_url d.cancel_url sid)
      else prev

/-- Accumulator of the tool-execution loop in `process_message`: the tool
messages appended so far, the running `suggested_products`,
`requires_action` and `action_data` values, and the pending exception (if a
call failed, the loop is exited and the turn-level handler takes over). -/
structure LoopAcc where
  tmsgs : List Msg := []
  suggested : List Product := []
  requires_action : Bool := false
  action_data : Option ActionData := none
  failed : Option String := none
deriving DecidableEq, Repr

/-- One iteration of the tool-execution loop of `process_message`. A
malformed call raises (recorded in `failed`, skipping the rest of the
batch); otherwise the call's result message is appended and the suggestion,
gating and pending-action values are updated as in the dispatch branches. -/
def dispatchCall (catalog : List Product) (carts : Carts) (sid : String)
    (acc : LoopAcc) (tc : ToolCall) : LoopAcc :=
  if acc.failed.isSome then acc
  else if !callOk tc then
    { acc with failed := some "could not parse tool call arguments" }
  else
    let y := callYield catalog tc
    { acc with
        tmsgs := acc.tmsgs ++ [toolMsgOf tc (callResult catalog carts sid tc)]
        suggested := if y.isEmpty then acc.suggested else y
        requires_action :=
          acc.requires_action || tc.name == "add_to_cart" || tc.name == "create_checkout"
        action_data := pendingOf catalog carts sid tc acc.action_data }

/-- Empty conversation created for a fresh session. -/
def freshConv (sid : String) : Conv :=
  { messages := [systemMsg], session_id := sid, has_image := false }

/-- Conversation retrieval (`getattr` with on-demand `setattr` creation). -/
def loadConv (convs : Convs) (sid : String) : Conv :=
  (convs sid).getD (freshConv sid)

/-- Conversation store: every return path of `process_message` leaves the
session's conversation holding the base transcript extended with the
messages appended during the turn, and the updated image flag. -/
def storeConv (convs : Convs) (sid : String) (conv0 : Conv) (hi : Bool)
    (suffix : List Msg) : Convs :=
  fun s =>
    if s = sid then
      some { conv0 with messages := conv0.messages ++ suffix, has_image := hi }
    else convs s

/-- Model of the Python truthiness test `not message or message.strip() == ""`. -/
def isBlank (m : String) : Bool :=
  m.data.all (fun c => c == ' ' || c == '\t' || c == '\n' || c == '\r')

/-- Default instruction substituted for an empty message on the first
image-bearing turn. -/
def imageDefaultText : String :=
  "Analyze this image and find similar products in the catalog."

/-- Continuation of `process_message` once the effective assistant message
is known: with no tool calls the turn is done (with the fallback text for
falsy content); otherwise the tool loop runs, a failure inside it aborts the
turn, and a final completion call produces the narration. `pre` holds the
messages already appended this turn and `store` writes the conversation
back. -/
def finishTurn (catalog : List Product) (carts : Carts) (sid : String)
    (base : List Msg) (store : List Msg → Convs) (assistant : AssistantOut)
    (pre : List Msg) (script : Script) : TurnResult × Convs × Script :=
  if assistant.tool_calls.isEmpty then
    ({ response := some (match assistant.content with
                         | some s => if s == "" then fallbackText else s
                         | none => fallbackText),
       suggested_products := [], requires_action := false, action_data := none },
     store pre, script)
  else
    let acc := assistant.tool_calls.foldl (dispatchCall catalog carts sid) {}
    match acc.failed with
    | some e => (mkDegraded e, store (pre ++ acc.tmsgs), script)
    | none =>
        match llmCall (base ++ pre ++ acc.tmsgs) script with
        | (.err e, script3) => (mkDegraded e, store (pre ++ acc.tmsgs), script3)
        | (.ok fin, script3) =>
            ({ response := fin.content, suggested_products := acc.suggested,
               requires_action := acc.requires_action, action_data := acc.action_data },
             store (pre ++ acc.tmsgs ++ [assistantMsgOf fin]), script3)

/-- Embedding of `ShoppingAgent.process_message` acting on the session
store, the cart collaborator (read-only here) and the completion script. -/
def processTurnAux (catalog : List Product) (message : String) (sid : String)
    (image_data : Option String) (convs : Convs) (carts : Carts)
    (script : Script) : TurnResult × Convs × Script :=
  let conv0 := loadConv convs sid
  -- Python: `if image_data:` — the empty string is falsy, so it does not
  -- count as an image upload and the whole image block is skipped for it
  let is_image_upload :=
    match image_data with
    | none => false
    | some img => !(img == "")
  let umsgHi : Msg × Bool :=
    match image_data with
    | none => (userTextMsg message, conv0.has_image)
    | some img =>
        if img == "" then
          (userTextMsg message, conv0.has_image)
        else if conv0.has_image then
          (userTextMsg message, true)
        else
          let m := if isBlank message then imageDefaultText else message
          ({ role := "user",
             content := .withImage m ("data:image/jpeg;base64," ++ img) }, true)
  let umsg := umsgHi.1
  let store := storeConv convs sid conv0 umsgHi.2
  match llmCall (conv0.messages ++ [umsg]) script with
  | (.err e, script1) => (mkDegraded e, store [umsg], script1)
  | (.ok a1, script1) =>
      if is_image_upload && a1.tool_calls.isEmpty then
        match llmCall (conv0.messages ++ [umsg, assistantMsgOf a1, nudgeMsg]) script1 with
        | (.err e, script2) =>
            (mkDegraded e, store [umsg, assistantMsgOf a1, nudgeMsg], script2)
        | (.ok a2, script2) =>
            -- the statement `conversation["messages"][-1] = assistant_message.model_dump()`
            -- overwrites the last entry of the transcript, which at this point is the
            -- nudge message appended just above, and is modelled as `dropLast ++ [new]`
            -- on the turn's suffix
            finishTurn catalog carts sid conv0.messages store a2
              (([umsg, assistantMsgOf a1, nudgeMsg].dropLast) ++ [assistantMsgOf a2])
              script2
      else
        finishTurn catalog carts sid conv0.messages store a1
          [umsg, assistantMsgOf a1] script1

/-- Whole-agent state: session store, cart collaborator, payment
collaborator, and the completion-call script. -/
structure AgentState where
  convs : Convs
  carts : Carts
  payments : PaymentState
  script : Script

/-- State-level embedding of `ShoppingAgent.process_message`: a turn reads
the cart collaborator but mutates only the session store and consumes
completion responses. -/
def processTurn (catalog : List Product) (message : String) (sid : String)
    (image_data : Option String) (st : AgentState) : TurnResult × AgentState :=
  let t := processTurnAux catalog message sid image_data st.convs st.carts st.script
  (t.1, { st with convs := t.2.1, script := t.2.2 })

/-- Field read `action_data.get("session_id")` (present in both payloads). -/
def ActionData.sessionIdOf : ActionData → String
  | .add _ _ s => s
  | .checkout _ _ _ _ s => s

/-- Field read `action_data.get("product", {}).get("id")`: an error payload
stored as the product has no `id` key, and a checkout payload has no
`product` key. -/
def ActionData.productIdOf : ActionData → Option String
  | .add (.ok p) _ _ => some p.id
  | .add (.err _) _ _ => none
  | .checkout _ _ _ _ _ => none

/-- Field read `action_data.get("quantity", 1)`. -/
def ActionData.quantityOf : ActionData → Int
  | .add _ q _ => q
  | .checkout _ _ _ _ _ => 1

/-- Field read `action_data.get("email")`. -/
def ActionData.emailOf : ActionData → Option String
  | .add _ _ _ => none
  | .checkout _ e _ _ _ => e

/-- Field read `action_data.get("success_url")`. -/
def ActionData.successUrlOf : ActionData → Option String
  | .add _ _ _ => none
  | .checkout _ _ u _ _ => u

/-- Field read `action_data.get("cancel_url")`. -/
def ActionData.cancelUrlOf : ActionData → Option String
  | .add _ _ _ => none
  | .checkout _ _ _ u _ => u

/-- Python truthiness of an optional string (`None` and `""` are falsy). -/
def falsyOpt : Option String → Bool
  | none => true
  | some s => s == ""

/-- Result of `execute_action`: status, message, and the payload returned by
the cart or checkout wrapper (which may itself be an error payload). -/
structure ActionResult where
  status : String
  message : String
  cart : Option (Outcome Cart) := none
  checkout : Option (Outcome CheckoutInfo) := none
deriving DecidableEq, Repr

/-- Embedding of `ShoppingAgent.execute_action`. Note that the collaborator
wrappers catch their own exceptions and return error payloads, so the
`except` clause of `execute_action` is unreachable in this model and the
composite result is labelled `success` whenever validation passed. -/
def executeAction (catalog : List Product) (action_type : String)
    (action_data : ActionData) (confirmed : Bool) (st : AgentState) :
    ActionResult × AgentState :=
  if !confirmed then
    ({ status := "cancelled", message := "Action cancelled by user" }, st)
  else if action_type == "add_to_cart" then
    let sid := action_data.sessionIdOf
    let pid := action_data.productIdOf
    if sid == "" || falsyOpt pid then
      ({ status := "error", message := "Missing required data for add_to_cart" }, st)
    else
      let r := agentAddToCart catalog st.carts sid (pid.getD "") action_data.quantityOf
      ({ status := "success",
         message := "Added " ++ toString action_data.quantityOf ++ " item(s) to cart",
         cart := some r.1 },
       { st with carts := r.2 })
  else if action_type == "checkout" then
    let sid := action_data.sessionIdOf
    let email := action_data.emailOf
    let success_url := action_data.successUrlOf
    let cancel_url := action_data.cancelUrlOf
    if sid == "" || falsyOpt email || falsyOpt success_url || falsyOpt cancel_url then
      ({ status := "error", message := "Missing required data for checkout" }, st)
    else
      let r := agentCreateCheckout st.carts st.payments sid (email.getD "")
        (success_url.getD "") (cancel_url.getD "")
      ({ status := "success", message := "Checkout created successfully",
         checkout := some r.1 },
       { st with payments := r.2 })
  else
    ({ status := "error", message := "Unknown action type: " ++ action_type }, st)

/-- Inputs of one `process_message` call. -/
structure TurnInput where
  message : String
  session_id : String
  image_data : Option String := none

/-- Sequential application of a list of turns to the agent state. -/
def applyTurns (catalog : List Product) (turns : List TurnInput)
    (st : AgentState) : AgentState :=
  turns.foldl
    (fun s t => (processTurn catalog t.message t.session_id t.image_data s).2) st

/-- Initial agent state: no conversations, empty carts, no payment sessions
created, and the given external-oracle scripts. -/
def initState (script : Script) (pscript : List (Outcome CheckoutSession)) :
    AgentState :=
  { convs := fun _ => none, carts := fun s => emptyCart s,
    payments := { script := pscript, created := [] }, script := script }

/-! Helper lemmas about the tool-execution loop. -/

/-- A completion call on a non-exhausted script consumes its head. -/
theorem llmCall_cons (msgs : List Msg) (r : Outcome AssistantOut) (rest : Script) :
    llmCall msgs (r :: rest) = (r, rest) := rfl

/-- A failed accumulator is left untouched by the rest of the batch (the
raised exception exits the loop). -/
theorem foldl_dispatch_failed (catalog : List Product) (carts : Carts) (sid : String)
    (calls : List ToolCall) (acc : LoopAcc) (hf : acc.failed.isSome) :
    calls.foldl (dispatchCall catalog carts sid) acc = acc := by
  induction calls with
  | nil => rfl
  | cons tc rest ih =>
      have hstep : dispatchCall catalog carts sid acc tc = acc := by
        unfold dispatchCall
        simp [hf]
      simp [List.foldl_cons, hstep, ih]

/-- One well-formed dispatch step, written as a record update. -/
theorem dispatchCall_ok (catalog : List Product) (carts : Carts) (sid : String)
    (acc : LoopAcc) (tc : ToolCall) (hf : acc.failed = none) (hok : callOk tc = true) :
    dispatchCall catalog carts sid acc tc =
      { acc with
          tmsgs := acc.tmsgs ++ [toolMsgOf tc (callResult catalog carts sid tc)]
          suggested :=
            if (callYield catalog tc).isEmpty then acc.suggested else callYield catalog tc
          requires_action :=
            acc.requires_action || tc.name == "add_to_cart" || tc.name == "create_checkout"
          action_data := pendingOf catalog carts sid tc acc.action_data } := by
  unfold dispatchCall
  simp [hf, hok]

/-- Characterization of the whole tool loop on a batch of well-formed calls:
one tool message per call in batch order, the suggestion and pending-action
folds, and gating exactly when some call is gated. -/
theorem foldl_dispatch_ok (catalog : List Product) (carts : Carts) (sid : String) :
    ∀ (calls : List ToolCall) (acc : LoopAcc),
      (∀ tc ∈ calls, callOk tc = true) → acc.failed = none →
      calls.foldl (dispatchCall catalog carts sid) acc =
        { tmsgs := acc.tmsgs ++
            calls.map (fun tc => toolMsgOf tc (callResult catalog carts sid tc)),
          suggested := calls.foldl
            (fun s tc => if (callYield catalog tc).isEmpty then s else callYield catalog tc)
            acc.suggested,
          requires_action := acc.requires_action ||
            calls.any (fun tc => tc.name == "add_to_cart" || tc.name == "create_checkout"),
          action_data := calls.foldl
            (fun a tc => pendingOf catalog carts sid tc a) acc.action_data,
          failed := none } := by
  intro calls
  induction calls with
  | nil =>
      intro acc _ hf
      obtain ⟨t, s, r, a, f⟩ := acc
      simp at hf
      simp [hf]
  | cons tc rest ih =>
      intro acc hok hf
      have hok1 : callOk tc = true := hok tc (by simp)
      have hokr : ∀ u ∈ rest, callOk u = true := fun u hu => hok u (by simp [hu])
      rw [List.foldl_cons, dispatchCall_ok catalog carts sid acc tc hf hok1, hf,
        ih _ hokr rfl]
      simp [List.append_assoc, Bool.or_assoc]

/-- The conversation written back by `finishTurn` is always the base
transcript extended by some suffix. -/
theorem finishTurn_convs (catalog : List Product) (carts : Carts) (sid : String)
    (base : List Msg) (store : List Msg → Convs) (assistant : AssistantOut)
    (pre : List Msg) (script : Script) :
    ∃ suffix, (finishTurn catalog carts sid base store assistant pre script).2.1 =
      store suffix := by
  unfold finishTurn
  split
  · exact ⟨pre, rfl⟩
  · dsimp only
    split
    · exact ⟨_, rfl⟩
    · split
      · exact ⟨_, rfl⟩
      · exact ⟨_, rfl⟩

/-- The conversation written back by a turn is always the base transcript
extended by some suffix, under the image flag the turn computes. -/
theorem processTurnAux_convs (catalog : List Product) (message : String)
    (sid : String) (image_data : Option String) (convs : Convs) (carts : Carts)
    (script : Script) :
    ∃ hi suffix,
      (processTurnAux catalog message sid image_data convs carts script).2.1 =
        storeConv convs sid (loadConv convs sid) hi suffix := by
  unfold processTurnAux
  dsimp only
  split
  · exact ⟨_, _, rfl⟩
  · split
    · split
      · exact ⟨_, _, rfl⟩
      · obtain ⟨suf, h⟩ := finishTurn_convs catalog carts sid _ _ _ _ _
        exact ⟨_, suf, h⟩
    · obtain ⟨suf, h⟩ := finishTurn_convs catalog carts sid _ _ _ _ _
      exact ⟨_, suf, h⟩

/-- Invariant: every session's conversation (existing or freshly created)
starts with the system instruction message. -/
def convHeadInv (convs : Convs) : Prop :=
  ∀ sid : String, (loadConv convs sid).messages.head? = some systemMsg

/-- Writing back a turn's transcript extension preserves the head
invariant: the base transcript is non-empty and keeps its head. -/
theorem storeConv_headInv (convs : Convs) (sid : String) (hi : Bool)
    (suffix : List Msg) (h : convHeadInv convs) :
    convHeadInv (storeConv convs sid (loadConv convs sid) hi suffix) := by
  intro s
  unfold loadConv storeConv
  by_cases hs : s = sid
  · subst hs
    have hhead := h s
    unfold loadConv at hhead
    have hne : ((convs s).getD (freshConv s)).messages ≠ [] := by
      intro hnil
      rw [hnil] at hhead
      simp at hhead
    rw [if_pos rfl, Option.getD_some]
    dsimp only
    rw [List.head?_append_of_ne_nil _ hne]
    exact hhead
  · simp only [if_neg hs]
    exact h s

/-- One turn preserves the head invariant of the session store. -/
theorem processTurn_headInv (catalog : List Product) (message sid : String)
    (image_data : Option String) (st : AgentState) (h : convHeadInv st.convs) :
    convHeadInv ((processTurn catalog message sid image_data st).2.convs) := by
  obtain ⟨hi, suffix, heq⟩ :=
    processTurnAux_convs catalog message sid image_data st.convs st.carts st.script
  show convHeadInv
    ((processTurnAux catalog message sid image_data st.convs st.carts st.script).2.1)
  rw [heq]
  exact storeConv_headInv st.convs sid hi suffix h

/-- Any sequence of turns preserves the head invariant. -/
theorem applyTurns_headInv (catalog : List Product) (turns : List TurnInput) :
    ∀ st : AgentState, convHeadInv st.convs →
      convHeadInv ((applyTurns catalog turns st).convs) := by
  induction turns with
  | nil => intro st h; exact h
  | cons t ts ih =>
      intro st h
      have hstep := processTurn_headInv catalog t.message t.session_id t.image_data st h
      simpa [applyTurns, List.foldl_cons] using ih _ hstep

/-- The initial session store satisfies the head invariant. -/
theorem initState_headInv (script : Script) (pscript : List (Outcome CheckoutSession)) :
    convHeadInv (initState script pscript).convs := by
  intro sid
  simp [initState, loadConv, freshConv]

/-- Characterization of a clean turn: no image, a first response carrying a
non-empty batch of well-formed tool calls, and a final narration response.
The transcript gains the user message, the assistant message, one tool
message per call in batch order, and the final assistant message; the turn
result carries the narration, the folded suggestions, the gating flag and
the folded pending action. -/
theorem processTurnAux_clean (catalog : List Product) (message sid : String)
    (convs : Convs) (carts : Carts) (a1 fin : AssistantOut) (rest : Script)
    (hne : a1.tool_calls ≠ [])
    (hok : ∀ tc ∈ a1.tool_calls, callOk tc = true) :
    processTurnAux catalog message sid none convs carts (.ok a1 :: .ok fin :: rest) =
      ({ response := fin.content,
         suggested_products := a1.tool_calls.foldl
           (fun s tc => if (callYield catalog tc).isEmpty then s else callYield catalog tc)
           [],
         requires_action := a1.tool_calls.any
           (fun tc => tc.name == "add_to_cart" || tc.name == "create_checkout"),
         action_data := a1.tool_calls.foldl
           (fun a tc => pendingOf catalog carts sid tc a) none },
       storeConv convs sid (loadConv convs sid) (loadConv convs sid).has_image
         ([userTextMsg message, assistantMsgOf a1] ++
           a1.tool_calls.map (fun tc => toolMsgOf tc (callResult catalog carts sid tc)) ++
           [assistantMsgOf fin]),
       rest) := by
  have hempty : a1.tool_calls.isEmpty = false := by
    cases hcalls : a1.tool_calls with
    | nil => exact absurd hcalls hne
    | cons x xs => rfl
  unfold processTurnAux
  dsimp only
  rw [llmCall_cons]
  dsimp only
  rw [Bool.false_and, if_neg (by simp)]
  unfold finishTurn
  rw [if_neg (by simp [hempty])]
  dsimp only
  rw [foldl_dispatch_ok catalog carts sid a1.tool_calls {} hok rfl]
  dsimp only
  rw [llmCall_cons]
  simp [List.append_assoc]

/-! Helper lemmas about cart arithmetic. -/

/-- Total quantity of a given product id in an item list. -/
def qtySum (product_id : String) (items : List CartItem) : Int :=
  ((items.filter (fun it => it.product.id == product_id)).map
    (fun it => it.quantity)).sum

/-- Correctness of each item's stored total: it is the quantity times the
unit price. -/
def itemInv (it : CartItem) : Prop :=
  it.item_total = (it.quantity : ℚ) * it.product.price

/-- Cart arithmetic invariant: correct item totals, subtotal as the sum of
item totals, the tax and shipping rules, and the grand total. -/
def cartInv (c : Cart) : Prop :=
  (∀ it ∈ c.items, itemInv it) ∧
  c.subtotal = (c.items.map (fun it => it.item_total)).sum ∧
  (0 < c.subtotal →
    c.tax = some (c.subtotal * (1 / 10 : ℚ)) ∧ c.shipping = some (599 / 100 : ℚ)) ∧
  (c.subtotal = 0 → c.tax = some 0 ∧ c.shipping = some 0) ∧
  c.total = c.subtotal + c.tax.getD 0 + c.shipping.getD 0

/-- Updating the first matching item adds the given quantity to its total
count for that product id. -/
theorem addToFirstMatch_qtySum (product_id : String) (q : Int) :
    ∀ {items items' : List CartItem},
      addToFirstMatch product_id q items = some items' →
      qtySum product_id items' = qtySum product_id items + q := by
  intro items
  induction items with
  | nil => intro items' h; simp [addToFirstMatch] at h
  | cons it rest ih =>
      intro items' h
      unfold addToFirstMatch at h
      by_cases hid : (it.product.id == product_id) = true
      · rw [if_pos hid] at h
        obtain rfl := Option.some.injEq _ _ ▸ h
        injection h with h2
        rw [← h2]
        simp [qtySum, List.filter_cons, hid]
        ring
      · rw [if_neg hid] at h
        obtain ⟨rest', hrest, rfl⟩ := Option.map_eq_some'.1 h
        simp [qtySum, List.filter_cons, hid] at ih ⊢
        exact ih hrest

/-- The cart-service add operation increases the total quantity of the added
product id by exactly the requested quantity. -/
theorem cartAddToCart_qtySum (catalog : List Product) (cart : Cart)
    (product_id : String) (q : Int) (c' : Cart)
    (h : cartAddToCart catalog cart product_id q = .ok c') :
    qtySum product_id c'.items = qtySum product_id cart.items + q := by
  unfold cartAddToCart at h
  cases hfind : getProductDetails catalog product_id with
  | none => rw [hfind] at h; exact absurd h (by simp)
  | some pd =>
      rw [hfind] at h
      have hpid : (pd.id == product_id) = true := by
        have := List.find?_some hfind
        simpa [getProductDetails] using this
      cases hmatch : addToFirstMatch product_id q cart.items with
      | some its =>
          rw [hmatch] at h
          injection h with h2
          rw [← h2]
          simpa [updateCartTotals] using addToFirstMatch_qtySum product_id q hmatch
      | none =>
          rw [hmatch] at h
          injection h with h2
          rw [← h2]
          simp [updateCartTotals, qtySum, List.filter_append, hpid]

/-- The totals recalculation establishes the cart invariant whenever the
item totals are individually correct. -/
theorem updateCartTotals_inv (c : Cart) (h : ∀ it ∈ c.items, itemInv it) :
    cartInv (updateCartTotals c) := by
  unfold updateCartTotals cartInv
  dsimp only
  refine ⟨h, rfl, ?_, ?_, ?_⟩
  · intro hpos
    rw [if_pos hpos, if_pos hpos]
    exact ⟨rfl, rfl⟩
  · intro hzero
    rw [hzero]
    simp
  · rfl

/-- Quantity update of the first matching item keeps the per-item totals
correct. -/
theorem addToFirstMatch_itemInv (product_id : String) (q : Int) :
    ∀ {items items' : List CartItem},
      addToFirstMatch product_id q items = some items' →
      (∀ it ∈ items, itemInv it) → ∀ it ∈ items', itemInv it := by
  intro items
  induction items with
  | nil => intro items' h; simp [addToFirstMatch] at h
  | cons it rest ih =>
      intro items' h hall
      unfold addToFirstMatch at h
      by_cases hid : (it.product.id == product_id) = true
      · rw [if_pos hid] at h
        injection h with h2
        rw [← h2]
        intro u hu
        rcases List.mem_cons.1 hu with rfl | hmem
        · exact rfl
        · exact hall u (List.mem_cons_of_mem _ hmem)
      · rw [if_neg hid] at h
        obtain ⟨rest', hrest, rfl⟩ := Option.map_eq_some'.1 h
        intro u hu
        rcases List.mem_cons.1 hu with rfl | hmem
        · exact hall u (List.mem_cons_self _ _)
        · exact ih hrest (fun v hv => hall v (List.mem_cons_of_mem _ hv)) u hmem

/-- Setting the quantity of the first matching item keeps the per-item
totals correct. -/
theorem setFirstMatch_itemInv (product_id : String) (q : Int) :
    ∀ {items items' : List CartItem},
      setFirstMatch product_id q items = some items' →
      (∀ it ∈ items, itemInv it) → ∀ it ∈ items', itemInv it := by
  intro items
  induction items with
  | nil => intro items' h; simp [setFirstMatch] at h
  | cons it rest ih =>
      intro items' h hall
      unfold setFirstMatch at h
      by_cases hid : (it.product.id == product_id) = true
      · rw [if_pos hid] at h
        injection h with h2
        rw [← h2]
        intro u hu
        rcases List.mem_cons.1 hu with rfl | hmem
        · exact rfl
        · exact hall u (List.mem_cons_of_mem _ hmem)
      · rw [if_neg hid] at h
        obtain ⟨rest', hrest, rfl⟩ := Option.map_eq_some'.1 h
        intro u hu
        rcases List.mem_cons.1 hu with rfl | hmem
        · exact hall u (List.mem_cons_self _ _)
        · exact ih hrest (fun v hv => hall v (List.mem_cons_of_mem _ hv)) u hmem

/-- The cart-service add operation establishes the cart invariant whenever
the incoming item totals are individually correct. -/
theorem cartAddToCart_inv (catalog : List Product) (cart : Cart)
    (product_id : String) (q : Int) (c' : Cart)
    (hitems : ∀ it ∈ cart.items, itemInv it)
    (h : cartAddToCart catalog cart product_id q = .ok c') : cartInv c' := by
  unfold cartAddToCart at h
  cases hfind : getProductDetails catalog product_id with
  | none => rw [hfind] at h; exact absurd h (by simp)
  | some pd =>
      rw [hfind] at h
      cases hmatch : addToFirstMatch product_id q cart.items with
      | some its =>
          rw [hmatch] at h
          injection h with h2
          rw [← h2]
          exact updateCartTotals_inv _ (addToFirstMatch_itemInv product_id q hmatch hitems)
      | none =>
          rw [hmatch] at h
          injection h with h2
          rw [← h2]
          refine updateCartTotals_inv _ ?_
          intro u hu
          rcases List.mem_append.1 hu with hmem | hnew
          · exact hitems u hmem
          · rw [List.mem_singleton.1 hnew]
            show pd.price * (q : ℚ) = (q : ℚ) * pd.price
            ring

/-- The cart-service remove operation establishes the cart invariant
whenever the incoming item totals are individually correct. -/
theorem cartRemoveFromCart_inv (cart : Cart) (product_id : String)
    (hitems : ∀ it ∈ cart.items, itemInv it) :
    cartInv (cartRemoveFromCart cart product_id) := by
  unfold cartRemoveFromCart
  refine updateCartTotals_inv _ ?_
  intro u hu
  exact hitems u (List.mem_of_mem_filter hu)

/-- The cart-service quantity update establishes the cart invariant whenever
the incoming item totals are individually correct. -/
theorem cartUpdateQuantity_inv (catalog : List Product) (cart : Cart)
    (product_id : String) (q : Int) (c' : Cart)
    (hitems : ∀ it ∈ cart.items, itemInv it)
    (h : cartUpdateQuantity catalog cart product_id q = .ok c') : cartInv c' := by
  unfold cartUpdateQuantity at h
  by_cases hany : (cart.items.any (fun it => it.product.id == product_id)) = true
  · rw [if_pos hany] at h
    by_cases hq : q ≤ 0
    · rw [if_pos hq] at h
      injection h with h2
      rw [← h2]
      exact cartRemoveFromCart_inv cart product_id hitems
    · rw [if_neg hq] at h
      injection h with h2
      rw [← h2]
      refine updateCartTotals_inv _ ?_
      cases hset : setFirstMatch product_id q cart.items with
      | some its =>
          dsimp only
          simp only [Option.getD_some]
          exact setFirstMatch_itemInv product_id q hset hitems
      | none =>
          dsimp only
          simp only [Option.getD_none]
          exact hitems
  · rw [if_neg hany] at h
    by_cases hq : 0 < q
    · rw [if_pos hq] at h
      exact cartAddToCart_inv catalog cart product_id q c' hitems h
    · rw [if_neg hq] at h
      injection h with h2
      rw [← h2]
      exact updateCartTotals_inv _ hitems

/-! Helper lemmas about substring containment. -/

/-- Matching at the front is stable under extending the haystack. -/
theorem startsWithList_append (n : List Char) :
    ∀ (h t : List Char), startsWithList n h = true →
      startsWithList n (h ++ t) = true := by
  induction n with
  | nil => intro h t _; cases h <;> rfl
  | cons a as ih =>
      intro h t hs
      cases h with
      | nil => simp [startsWithList] at hs
      | cons b bs =>
          simp only [startsWithList, Bool.and_eq_true] at hs
          simp only [List.cons_append, startsWithList, Bool.and_eq_true]
          exact ⟨hs.1, ih bs t hs.2⟩

/-- The empty needle occurs in every haystack. -/
theorem infixOfList_nil (l : List Char) : infixOfList [] l = true := by
  induction l with
  | nil => rfl
  | cons b bs ih => simp [infixOfList, startsWithList, ih]

/-- Occurrence of a needle is stable under extending the haystack. -/
theorem infixOfList_append (n : List Char) :
    ∀ (h t : List Char), infixOfList n h = true →
      infixOfList n (h ++ t) = true := by
  intro h
  induction h with
  | nil =>
      intro t hi
      cases n with
      | nil => simpa using infixOfList_nil t
      | cons a as => simp [infixOfList, startsWithList] at hi
  | cons b bs ih =>
      intro t hi
      simp only [infixOfList, Bool.or_eq_true] at hi
      rcases hi with hs | hrec
      · simp only [List.cons_append, infixOfList, Bool.or_eq_true]
        exact Or.inl (startsWithList_append n (b :: bs) t hs)
      · simp only [List.cons_append, infixOfList, Bool.or_eq_true]
        exact Or.inr (ih t hrec)

/-! Concrete data used by witnesses and counterexamples. -/

/-- Demonstration product used by witnesses. -/
def demoProduct : Product :=
  { id := "p1", name := "Demo", description := "A demo product", price := 10,
    category := "Demo", brand := none }

/-- Cart obtained by adding two units of the demonstration product to the
empty cart of session `s1`. -/
def demoCartAfterAdd : Cart :=
  updateCartTotals
    { emptyCart "s1" with
        items := [{ product := demoProduct, quantity := 2,
                    item_total := demoProduct.price * ((2 : Int) : ℚ) }] }

/-- Mock catalog from `product_service.py::MOCK_PRODUCTS`, restricted to the
fields the embedding reads. -/
def mockCatalog : List Product :=
  [{ id := "p1001", name := "Budget Gaming Laptop",
     description := "Affordable gaming laptop with great performance",
     price := 79999 / 100, category := "Laptops", brand := some "TechX" },
   { id := "p1002", name := "Ultra-thin Professional Laptop",
     description := "Sleek and powerful laptop for professionals",
     price := 129999 / 100, category := "Laptops", brand := some "Macrosoft" },
   { id := "p1003", name := "Smart 4K Television",
     description := "4K UHD Smart TV with voice control",
     price := 54999 / 100, category := "Televisions", brand := some "VisionPlus" },
   { id := "p1004", name := "Wireless Noise Cancelling Headphones",
     description := "Premium wireless headphones with active noise cancellation",
     price := 24999 / 100, category := "Audio", brand := some "SoundMaster" },
   { id := "p1005", name := "High-Performance Smartphone",
     description := "Flagship smartphone with advanced camera system",
     price := 89999 / 100, category := "Smartphones", brand := some "Pear" }]

/-! Claim theorems. -/

/-- C1: a turn never mutates the cart or payment collaborators (so a gated
tool call requested within it cannot either); `execute_action` with
`confirmed = false` leaves the whole state unchanged; and `execute_action`
with `confirmed = true` on a valid `add_to_cart` pending action performs
exactly the requested cart mutation. -/
theorem C1_confirmation_gate :
    (∀ (catalog : List Product) (message sid : String) (image_data : Option String)
       (st : AgentState),
       (processTurn catalog message sid image_data st).2.carts = st.carts ∧
       (processTurn catalog message sid image_data st).2.payments = st.payments) ∧
    (∀ (catalog : List Product) (action_type : String) (action_data : ActionData)
       (st : AgentState),
       (executeAction catalog action_type action_data false st).2 = st) ∧
    (∀ (catalog : List Product) (p : Product) (q : Int) (sid : String)
       (st : AgentState) (c' : Cart),
       sid ≠ "" → p.id ≠ "" →
       cartAddToCart catalog (st.carts sid) p.id q = .ok c' →
       (executeAction catalog "add_to_cart" (.add (.ok p) q sid) true st).1.status =
         "success" ∧
       (executeAction catalog "add_to_cart" (.add (.ok p) q sid) true st).2.carts sid =
         c' ∧
       qtySum p.id c'.items = qtySum p.id (st.carts sid).items + q) := by
  refine ⟨fun catalog message sid image_data st => ⟨rfl, rfl⟩,
    fun catalog action_type action_data st => rfl,
    fun catalog p q sid st c' hsid hpid hadd => ?_⟩
  have hsidb : (sid == "") = false := by
    simp [hsid]
  have hpidb : (p.id == "") = false := by
    simp [hpid]
  have hexec :
      executeAction catalog "add_to_cart" (.add (.ok p) q sid) true st =
        ({ status := "success",
           message := "Added " ++ toString q ++ " item(s) to cart",
           cart := some (.ok c') },
         { st with carts := fun s => if s = sid then c' else st.carts s }) := by
    unfold executeAction
    simp only [Bool.not_true, Bool.false_eq_true, if_false, beq_self_eq_true, if_true]
    dsimp only [ActionData.sessionIdOf, ActionData.productIdOf, ActionData.quantityOf]
    rw [hsidb]
    simp only [falsyOpt, hpidb, Bool.or_self, Bool.false_eq_true, if_false]
    dsimp only [Option.getD_some]
    unfold agentAddToCart cartServiceAdd
    rw [hadd]
  refine ⟨by rw [hexec], ?_, cartAddToCart_qtySum catalog _ p.id q c' hadd⟩
  rw [hexec]
  simp

/-- C1 witness: adding two units of the demo product after confirmation
succeeds and the session cart gains exactly two units. -/
theorem C1_confirmation_gate_witness :
    (executeAction [demoProduct] "add_to_cart" (.add (.ok demoProduct) 2 "s1") true
        (initState [] [])).1.status = "success" ∧
    (executeAction [demoProduct] "add_to_cart" (.add (.ok demoProduct) 2 "s1") true
        (initState [] [])).2.carts "s1" = demoCartAfterAdd ∧
    qtySum demoProduct.id demoCartAfterAdd.items =
      qtySum demoProduct.id (((initState [] []).carts "s1").items) + 2 :=
  C1_confirmation_gate.2.2 [demoProduct] demoProduct 2 "s1" (initState [] [])
    demoCartAfterAdd (by decide) (by decide) rfl

/-- C6: after any sequence of turns from the initial state, every session's
conversation still has the fixed system instruction message as its first
entry. -/
theorem C6_system_prompt_first (catalog : List Product) (script : Script)
    (pscript : List (Outcome CheckoutSession)) (turns : List TurnInput) :
    convHeadInv ((applyTurns catalog turns (initState script pscript)).convs) :=
  applyTurns_headInv catalog turns (initState script pscript)
    (initState_headInv script pscript)

/-- C7: `execute_action` with `confirmed = false` returns the cancelled
status and message and leaves the whole agent state, including cart and
payment collaborators, unchanged, for every action type and payload. -/
theorem C7_cancel_keeps_state (catalog : List Product) (action_type : String)
    (action_data : ActionData) (st : AgentState) :
    executeAction catalog action_type action_data false st =
      ({ status := "cancelled", message := "Action cancelled by user" }, st) := rfl

/-- C10: each totals-recalculating cart operation establishes the cart
arithmetic invariant (correct item totals, subtotal, 10 percent tax and
flat 5.99 shipping on positive subtotals, zero tax and shipping on zero
subtotals, and the grand total), given correct incoming item totals. -/
theorem C10_cart_arithmetic :
    (∀ (catalog : List Product) (cart : Cart) (product_id : String) (q : Int)
       (c' : Cart), (∀ it ∈ cart.items, itemInv it) →
       cartAddToCart catalog cart product_id q = .ok c' → cartInv c') ∧
    (∀ (cart : Cart) (product_id : String),
       (∀ it ∈ cart.items, itemInv it) →
       cartInv (cartRemoveFromCart cart product_id)) ∧
    (∀ (catalog : List Product) (cart : Cart) (product_id : String) (q : Int)
       (c' : Cart), (∀ it ∈ cart.items, itemInv it) →
       cartUpdateQuantity catalog cart product_id q = .ok c' → cartInv c') :=
  ⟨fun catalog cart product_id q c' hitems h =>
      cartAddToCart_inv catalog cart product_id q c' hitems h,
   fun cart product_id hitems => cartRemoveFromCart_inv cart product_id hitems,
   fun catalog cart product_id q c' hitems h =>
      cartUpdateQuantity_inv catalog cart product_id q c' hitems h⟩

/-- C10 witness: the cart obtained by adding two demo products to an empty
cart satisfies the arithmetic invariant. -/
theorem C10_cart_arithmetic_witness : cartInv demoCartAfterAdd :=
  C10_cart_arithmetic.1 [demoProduct] (emptyCart "s1") "p1" 2 demoCartAfterAdd
    (by simp [emptyCart]) rfl

/-- C9: whenever a completion call fails — the first call on any turn, the
forced call of an image-forcing turn (one whose image payload is truthy, as
the empty string is falsy for `if image_data:`, and whose first response has
no tool calls), the final narration call after a tool batch on a turn with
any image payload, or the narration call after a successful forced call —
the turn consumes exactly that one failing scripted response (no retry),
aborts, and returns the degraded result: the apology text (which contains
the documented phrase), no suggested products, no action required and no
pending action. -/
theorem C9_upstream_error_not_retried :
    (∀ (catalog : List Product) (message sid : String) (image_data : Option String)
       (st : AgentState) (e : String) (rest : Script),
       st.script = .err e :: rest →
       (processTurn catalog message sid image_data st).1 = mkDegraded e ∧
       (processTurn catalog message sid image_data st).2.script = rest) ∧
    (∀ (catalog : List Product) (message sid img : String) (st : AgentState)
       (a1 : AssistantOut) (e : String) (rest : Script),
       img ≠ "" →
       st.script = .ok a1 :: .err e :: rest → a1.tool_calls = [] →
       (processTurn catalog message sid (some img) st).1 = mkDegraded e ∧
       (processTurn catalog message sid (some img) st).2.script = rest) ∧
    (∀ (catalog : List Product) (message sid : String) (image_data : Option String)
       (st : AgentState) (a1 : AssistantOut) (e : String) (rest : Script),
       st.script = .ok a1 :: .err e :: rest → a1.tool_calls ≠ [] →
       (∀ tc ∈ a1.tool_calls, callOk tc = true) →
       (processTurn catalog message sid image_data st).1 = mkDegraded e ∧
       (processTurn catalog message sid image_data st).2.script = rest) ∧
    (∀ (catalog : List Product) (message sid img : String) (st : AgentState)
       (a1 a2 : AssistantOut) (e : String) (rest : Script),
       img ≠ "" →
       st.script = .ok a1 :: .ok a2 :: .err e :: rest →
       a1.tool_calls = [] → a2.tool_calls ≠ [] →
       (∀ tc ∈ a2.tool_calls, callOk tc = true) →
       (processTurn catalog message sid (some img) st).1 = mkDegraded e ∧
       (processTurn catalog message sid (some img) st).2.script = rest) ∧
    (∀ e : String,
       strContains (errorIntro ++ e)
         "I encountered an error processing your request" = true) := by
  refine ⟨?_, ?_, ?_, ?_, ?_⟩
  · intro catalog message sid image_data st e rest hs
    obtain ⟨convs, carts, pay, script⟩ := st
    dsimp only at hs
    subst hs
    exact ⟨rfl, rfl⟩
  · intro catalog message sid img st a1 e rest himg hs hcalls
    obtain ⟨convs, carts, pay, script⟩ := st
    dsimp only at hs
    subst hs
    obtain ⟨c1, calls⟩ := a1
    dsimp only at hcalls
    subst hcalls
    have hbeq : (img == "") = false := beq_eq_false_iff_ne.mpr himg
    have haux :
        (processTurnAux catalog message sid (some img) convs carts
            (.ok ⟨c1, []⟩ :: .err e :: rest)).1 = mkDegraded e ∧
        (processTurnAux catalog message sid (some img) convs carts
            (.ok ⟨c1, []⟩ :: .err e :: rest)).2.2 = rest := by
      unfold processTurnAux
      dsimp only
      rw [llmCall_cons]
      dsimp only
      rw [hbeq]
      rw [if_pos (by simp)]
      rw [llmCall_cons]
      exact ⟨rfl, rfl⟩
    exact haux
  · intro catalog message sid image_data st a1 e rest hs hne hok
    obtain ⟨convs, carts, pay, script⟩ := st
    dsimp only at hs
    subst hs
    have hempty : a1.tool_calls.isEmpty = false := by
      cases hcalls : a1.tool_calls with
      | nil => exact absurd hcalls hne
      | cons x xs => rfl
    have haux :
        (processTurnAux catalog message sid image_data convs carts
            (.ok a1 :: .err e :: rest)).1 = mkDegraded e ∧
        (processTurnAux catalog message sid image_data convs carts
            (.ok a1 :: .err e :: rest)).2.2 = rest := by
      unfold processTurnAux
      dsimp only
      rw [llmCall_cons]
      dsimp only
      rw [hempty, Bool.and_false, if_neg (by simp)]
      unfold finishTurn
      rw [if_neg (by simp [hempty])]
      dsimp only
      rw [foldl_dispatch_ok catalog carts sid a1.tool_calls {} hok rfl]
      exact ⟨rfl, rfl⟩
    exact haux
  · intro catalog message sid img st a1 a2 e rest himg hs hcalls hne2 hok2
    obtain ⟨convs, carts, pay, script⟩ := st
    dsimp only at hs
    subst hs
    obtain ⟨c1, calls⟩ := a1
    dsimp only at hcalls
    subst hcalls
    have hbeq : (img == "") = false := beq_eq_false_iff_ne.mpr himg
    have hempty2 : a2.tool_calls.isEmpty = false := by
      cases hc : a2.tool_calls with
      | nil => exact absurd hc hne2
      | cons x xs => rfl
    have haux :
        (processTurnAux catalog message sid (some img) convs carts
            (.ok ⟨c1, []⟩ :: .ok a2 :: .err e :: rest)).1 = mkDegraded e ∧
        (processTurnAux catalog message sid (some img) convs carts
            (.ok ⟨c1, []⟩ :: .ok a2 :: .err e :: rest)).2.2 = rest := by
      unfold processTurnAux
      dsimp only
      rw [llmCall_cons]
      dsimp only
      rw [hbeq]
      rw [if_pos (by simp)]
      rw [llmCall_cons]
      dsimp only
      unfold finishTurn
      rw [if_neg (by simp [hempty2])]
      dsimp only
      rw [foldl_dispatch_ok catalog carts sid a2.tool_calls {} hok2 rfl]
      exact ⟨rfl, rfl⟩
    exact haux
  · intro e
    unfold strContains
    rw [String.data_append]
    apply infixOfList_append
    decide

/-- C9 witness: a first-call failure with message `boom` yields the degraded
result and consumes the only scripted response. -/
theorem C9_upstream_error_not_retried_witness :
    (processTurn [] "hello" "s1" none (initState [.err "boom"] [])).1 =
      mkDegraded "boom" ∧
    (processTurn [] "hello" "s1" none (initState [.err "boom"] [])).2.script = [] :=
  C9_upstream_error_not_retried.1 [] "hello" "s1" none
    (initState [.err "boom"] []) "boom" [] rfl

/-- C8: on a clean turn whose first response carries a non-empty batch of
well-formed tool calls, the transcript gains exactly one tool message per
call, placed between the assistant message and the final narration, in the
exact order of the batch; each tool message references its originating tool
call id and has the tool role; and this holds whether or not gated calls
appear anywhere in the batch. -/
theorem C8_batch_processed_in_order (catalog : List Product) (message sid : String)
    (st : AgentState) (a1 fin : AssistantOut) (rest : Script)
    (hs : st.script = .ok a1 :: .ok fin :: rest)
    (hne : a1.tool_calls ≠ [])
    (hok : ∀ tc ∈ a1.tool_calls, callOk tc = true) :
    ((processTurn catalog message sid none st).2.convs sid =
      some { loadConv st.convs sid with
             messages := (loadConv st.convs sid).messages ++
               [userTextMsg message, assistantMsgOf a1] ++
               a1.tool_calls.map
                 (fun tc => toolMsgOf tc (callResult catalog st.carts sid tc)) ++
               [assistantMsgOf fin] }) ∧
    ((a1.tool_calls.map
        (fun tc => toolMsgOf tc (callResult catalog st.carts sid tc))).map
        (fun m => m.tool_call_id) =
      a1.tool_calls.map (fun tc => some tc.id)) ∧
    (∀ m ∈ a1.tool_calls.map
        (fun tc => toolMsgOf tc (callResult catalog st.carts sid tc)),
       m.role = "tool") := by
  obtain ⟨convs, carts, pay, script⟩ := st
  dsimp only at hs
  subst hs
  refine ⟨?_, ?_, ?_⟩
  · show (processTurnAux catalog message sid none convs carts
        (.ok a1 :: .ok fin :: rest)).2.1 sid = _
    rw [processTurnAux_clean catalog message sid convs carts a1 fin rest hne hok]
    dsimp only
    unfold storeConv
    rw [if_pos rfl]
    dsimp only [loadConv]
    simp [List.append_assoc]
  · rw [List.map_map]
    rfl
  · intro m hm
    obtain ⟨tc, _, rfl⟩ := List.mem_map.1 hm
    rfl

/-- Tool calls used by the C8 witness: a search, a gated add-to-cart and a
cart read in one batch. -/
def c8Calls : List ToolCall :=
  [{ id := "call1", name := "search_products",
     args := some { query := some "laptop" } },
   { id := "call2", name := "add_to_cart",
     args := some { product_id := some "p1001", quantity := some 1 } },
   { id := "call3", name := "get_cart", args := some {} }]

/-- C8 witness: the three-call batch (including a gated call in the middle)
yields exactly three tool messages in batch order. -/
theorem C8_batch_processed_in_order_witness :
    (processTurn mockCatalog "hello" "s8" none
        (initState [.ok { tool_calls := c8Calls }, .ok { content := some "done" }] [])).2.convs
        "s8" =
      some { loadConv (initState [.ok { tool_calls := c8Calls },
               .ok { content := some "done" }] []).convs "s8" with
             messages := (loadConv (initState [.ok { tool_calls := c8Calls },
                 .ok { content := some "done" }] []).convs "s8").messages ++
               [userTextMsg "hello",
                assistantMsgOf { tool_calls := c8Calls }] ++
               c8Calls.map
                 (fun tc => toolMsgOf tc
                   (callResult mockCatalog
                     (initState [.ok { tool_calls := c8Calls },
                       .ok { content := some "done" }] []).carts "s8" tc)) ++
               [assistantMsgOf { content := some "done" }] } :=
  (C8_batch_processed_in_order mockCatalog "hello" "s8"
    (initState [.ok { tool_calls := c8Calls }, .ok { content := some "done" }] [])
    { tool_calls := c8Calls } { content := some "done" } [] rfl (by decide)
    (by decide)).1

/-- Search call whose query matches the two laptops of the mock catalog. -/
def c5CallLaptop : ToolCall :=
  { id := "call1", name := "search_products", args := some { query := some "laptop" } }

/-- Search call whose query matches nothing in the mock catalog. -/
def c5CallEmpty : ToolCall :=
  { id := "call2", name := "search_products", args := some { query := some "qqqq" } }

/-- C5 counterexample: with a matching search followed by an empty search in
one batch, the turn keeps the earlier non-empty product list even though the
last such tool call returned the empty list, refuting the claim that the
last call always overwrites `suggested_products`. -/
theorem C5_counterexample :
    (processTurn mockCatalog "find laptops" "s5" none
        (initState [.ok { tool_calls := [c5CallLaptop, c5CallEmpty] },
          .ok { content := some "ok" }] [])).1.suggested_products =
      mockCatalog.take 2 ∧
    searchProducts mockCatalog "qqqq" none = [] :=
  ⟨rfl, rfl⟩

/-- C5 amended: in a clean turn, `suggested_products` equals the product
list of the last tool call in the batch whose yield is non-empty; in
particular, whenever the final call of the batch yields a non-empty product
list, that list wins. A call with an empty or error yield leaves the
previous value in place (shown by the counterexample). -/
theorem C5_amended_last_nonempty_wins (catalog : List Product)
    (message sid : String) (st : AgentState) (a1 fin : AssistantOut)
    (rest : Script) (batch : List ToolCall) (c : ToolCall)
    (hs : st.script = .ok a1 :: .ok fin :: rest)
    (hcalls : a1.tool_calls = batch ++ [c])
    (hok : ∀ tc ∈ a1.tool_calls, callOk tc = true)
    (hy : callYield catalog c ≠ []) :
    (processTurn catalog message sid none st).1.suggested_products =
      callYield catalog c := by
  obtain ⟨convs, carts, pay, script⟩ := st
  dsimp only at hs
  subst hs
  have hne : a1.tool_calls ≠ [] := by
    rw [hcalls]
    simp
  show (processTurnAux catalog message sid none convs carts
      (.ok a1 :: .ok fin :: rest)).1.suggested_products = _
  rw [processTurnAux_clean catalog message sid convs carts a1 fin rest hne hok]
  dsimp only
  rw [hcalls, List.foldl_append]
  dsimp only [List.foldl_cons, List.foldl_nil]
  have hyfalse : (callYield catalog c).isEmpty = false := by
    cases hcy : callYield catalog c with
    | nil => exact absurd hcy hy
    | cons x xs => rfl
  rw [hyfalse]
  simp

/-- C5 amended witness: an empty search followed by a matching search makes
the matching search's list the turn's suggestions. -/
theorem C5_amended_last_nonempty_wins_witness :
    (processTurn mockCatalog "hi" "s5w" none
        (initState [.ok { tool_calls := [c5CallEmpty, c5CallLaptop] },
          .ok { content := some "ok" }] [])).1.suggested_products =
      callYield mockCatalog c5CallLaptop :=
  C5_amended_last_nonempty_wins mockCatalog "hi" "s5w"
    (initState [.ok { tool_calls := [c5CallEmpty, c5CallLaptop] },
      .ok { content := some "ok" }] [])
    { tool_calls := [c5CallEmpty, c5CallLaptop] } { content := some "ok" } []
    [c5CallEmpty] c5CallLaptop rfl rfl (by decide) (by decide)

/-- Tool call whose arguments JSON does not parse. -/
def c4BadCall : ToolCall :=
  { id := "call1", name := "search_products", args := none }

/-- Well-formed cart-read call following the malformed one. -/
def c4GoodCall : ToolCall :=
  { id := "call2", name := "get_cart", args := some {} }

/-- C4 counterexample: a malformed tool call aborts the turn through the
turn-level handler: the result is the degraded response, no tool-result
message is appended for the malformed call nor for the valid call after it,
and the final scripted completion response is left unconsumed. -/
theorem C4_counterexample :
    ((processTurn [] "hi" "s4" none
        (initState [.ok { tool_calls := [c4BadCall, c4GoodCall] },
          .ok { content := some "done" }] [])).1 =
      mkDegraded "could not parse tool call arguments") ∧
    ((processTurn [] "hi" "s4" none
        (initState [.ok { tool_calls := [c4BadCall, c4GoodCall] },
          .ok { content := some "done" }] [])).2.convs "s4" =
      some { messages := [systemMsg, userTextMsg "hi",
                          assistantMsgOf { tool_calls := [c4BadCall, c4GoodCall] }],
             session_id := "s4", has_image := false }) ∧
    ((processTurn [] "hi" "s4" none
        (initState [.ok { tool_calls := [c4BadCall, c4GoodCall] },
          .ok { content := some "done" }] [])).2.script =
      [.ok { content := some "done" }]) :=
  ⟨rfl, rfl, rfl⟩

/-- C4 amended: malformed tool-call arguments do not crash the process, but
they are not recovered locally either: the raised parse error propagates to
the turn-level handler, the turn aborts with the degraded response, no
tool-result message is appended for that call or any later call of the
batch, the collaborators are untouched and the rest of the script is left
unconsumed. -/
theorem C4_amended_malformed_aborts_turn (catalog : List Product)
    (message sid : String) (st : AgentState) (a1 : AssistantOut)
    (tcBad : ToolCall) (more : List ToolCall) (rest : Script)
    (hs : st.script = .ok a1 :: rest)
    (hcalls : a1.tool_calls = tcBad :: more)
    (hbad : tcBad.args = none) :
    (processTurn catalog message sid none st).1 =
      mkDegraded "could not parse tool call arguments" ∧
    (processTurn catalog message sid none st).2.carts = st.carts ∧
    (processTurn catalog message sid none st).2.convs sid =
      some { loadConv st.convs sid with
             messages := (loadConv st.convs sid).messages ++
               [userTextMsg message, assistantMsgOf a1] } ∧
    (processTurn catalog message sid none st).2.script = rest := by
  obtain ⟨convs, carts, pay, script⟩ := st
  dsimp only at hs
  subst hs
  have hempty : a1.tool_calls.isEmpty = false := by
    rw [hcalls]
    rfl
  have hcallok : callOk tcBad = false := by
    unfold callOk
    rw [hbad]
  have hstep : dispatchCall catalog carts sid {} tcBad =
      { failed := some "could not parse tool call arguments" } := by
    unfold dispatchCall
    rw [hcallok]
    simp
  have haux : processTurnAux catalog message sid none convs carts (.ok a1 :: rest) =
      (mkDegraded "could not parse tool call arguments",
       storeConv convs sid (loadConv convs sid) (loadConv convs sid).has_image
         ([userTextMsg message, assistantMsgOf a1] ++ []),
       rest) := by
    unfold processTurnAux
    dsimp only
    rw [llmCall_cons]
    dsimp only
    rw [Bool.false_and, if_neg (by simp)]
    unfold finishTurn
    rw [if_neg (by simp [hempty])]
    dsimp only
    rw [hcalls, List.foldl_cons, hstep,
      foldl_dispatch_failed catalog carts sid more _ (by rfl)]
  refine ⟨?_, rfl, ?_, ?_⟩
  · show (processTurnAux catalog message sid none convs carts
        (.ok a1 :: rest)).1 = _
    rw [haux]
  · show (processTurnAux catalog message sid none convs carts
        (.ok a1 :: rest)).2.1 sid = _
    rw [haux]
    dsimp only
    unfold storeConv
    rw [if_pos rfl]
    dsimp only [loadConv]
    simp
  · show (processTurnAux catalog message sid none convs carts
        (.ok a1 :: rest)).2.2 = _
    rw [haux]

/-- C4 amended witness: a single malformed call at a concrete input yields
the degraded response. -/
theorem C4_amended_malformed_aborts_turn_witness :
    (processTurn [] "hi" "s4w" none
        (initState [.ok { tool_calls := [c4BadCall] }] [])).1 =
      mkDegraded "could not parse tool call arguments" :=
  (C4_amended_malformed_aborts_turn [] "hi" "s4w"
    (initState [.ok { tool_calls := [c4BadCall] }] [])
    { tool_calls := [c4BadCall] } c4BadCall [] [] rfl rfl rfl).1

/-- Search call requested by the forced completion response in the C2 run. -/
def c2SearchCall : ToolCall :=
  { id := "call1", name := "search_products", args := some { query := some "red lamp" } }

/-- Transcript produced by the C2 run. -/
def c2ExpectedMsgs : List Msg :=
  [systemMsg,
   { role := "user", content := .withImage "look at this" "data:image/jpeg;base64,img" },
   assistantMsgOf { content := some "A nice picture." },
   assistantMsgOf { tool_calls := [c2SearchCall] },
   toolMsgOf c2SearchCall (.search []),
   assistantMsgOf { content := some "Here are some products." }]

/-- C2 evaluation at the failing input: an image turn whose first response
has no tool calls triggers the forcing path, but the assignment
`messages[-1] = ...` lands on the nudge message, so the final transcript
contains no nudge message at all while the original no-tool-call assistant
message survives at index 2 — the opposite of the specified behavior. -/
theorem C2_code_evaluation :
    ((processTurn [] "look at this" "s2" (some "img")
        (initState [.ok { content := some "A nice picture." },
          .ok { tool_calls := [c2SearchCall] },
          .ok { content := some "Here are some products." }] [])).2.convs "s2" =
      some { messages := c2ExpectedMsgs, session_id := "s2", has_image := true }) ∧
    nudgeMsg ∉ c2ExpectedMsgs ∧
    c2ExpectedMsgs.get? 2 = some (assistantMsgOf { content := some "A nice picture." }) :=
  ⟨rfl, by decide, rfl⟩

/-- C3 evaluation at the failing inputs: a confirmed `add_to_cart` whose
product no longer exists, and a confirmed checkout whose payment provider
raises, both return `status = "success"` with the collaborator error buried
in the payload, instead of the specified `status = "error"`. -/
theorem C3_code_evaluation :
    ((executeAction mockCatalog "add_to_cart" (.add (.ok demoProduct) 1 "s3") true
        (initState [] [])).1 =
      { status := "success", message := "Added 1 item(s) to cart",
        cart := some (.err "Product with ID p1 not found") }) ∧
    ((executeAction mockCatalog "checkout"
        (.checkout (emptyCart "s3") (some "user@example.com")
          (some "https://example.com/ok") (some "https://example.com/cancel") "s3")
        true
        (initState [] [.err "Payment processing error: card declined"])).1 =
      { status := "success", message := "Checkout created successfully",
        checkout := some (.err "Payment processing error: card declined") }) :=
  ⟨rfl, rfl⟩

end SmartShopping
